import Mathlib

/-!
Verification development for the obsbot_ros command-dispatch and
device-discovery subsystem.

The repository ships the public headers (`dev.hpp`, `devs.hpp`, `comm.hpp`)
and a demo client (`main.cpp`).  Enumerations, numeric constants and the
demo's device-tracking logic are embedded directly from that source.  The
library internals (request dispatcher, status poller, Wi-Fi provisioning
machine, device registry bodies) are declared but not implemented under
`src/`; where a claim depends on them, the definition is modelled from the
spec and says so in its doc comment.
-/

namespace Obsbot

/-! ## Constants from the source headers -/

/-- From dev.hpp line 20: status refresh period in poll ticks. -/
def UVC_DEV_CAM_STATUS_REFRESH_PERIOD : Nat := 100

/-- From dev.hpp line 23: UUID length in bytes. -/
def DEV_UUID_SIZE : Nat := 24

/-- From dev.hpp line 25. -/
def RM_RET_OK : Int := 0

/-- From dev.hpp line 26. -/
def RM_RET_ERR : Int := -1

/-! Communication error taxonomy, from `Device::ErrorType` in dev.hpp
lines 296-306. -/

/-- Mode error: current DevMode does not support this function. -/
def CommErrorMode : Int := -7

/-- Initialization error. -/
def CommErrorInited : Int := -6

/-- Frame length error. -/
def CommErrorLength : Int := -5

/-- Device is busy. -/
def CommErrorBusy : Int := -4

/-- Timeout error. -/
def CommErrorTimeout : Int := -3

/-- Error response from device. -/
def CommErrorResp : Int := -2

/-- Other unknown error. -/
def CommErrorOther : Int := -1

/-- No error. -/
def CommErrorNone : Int := 0

/-! File download result taxonomy, from `ResDownloadState` in dev.hpp
lines 41-49. -/

/-- File name error. -/
def kResNameErr : Int := -4

/-- File type error. -/
def kResTypeErr : Int := -3

/-- File download error. -/
def kResDownloadErr : Int := -2

/-- File not exist in dev. -/
def kResNotExist : Int := -1

/-- File download success. -/
def kResDownloadSuccess : Int := 0

/-- File in dev is the same as local. -/
def kResSameWithLocal : Int := 1

/-! Wi-Fi related result codes, from `Devices::DevicesState` in devs.hpp
lines 19-44 (the Wifi block restarts the enumerator at 0). -/

/-- WifiOk value of DevicesState. -/
def WifiOk : Int := 0

/-- WifiTimeout value of DevicesState. -/
def WifiTimeout : Int := 1

/-- WifiBluetoothOccupied value of DevicesState. -/
def WifiBluetoothOccupied : Int := 2

/-- WifiConnectBluetoothFailed value of DevicesState. -/
def WifiConnectBluetoothFailed : Int := 3

/-- WifiSetModeFailed value of DevicesState. -/
def WifiSetModeFailed : Int := 4

/-- WifiGetHistoryFailed value of DevicesState. -/
def WifiGetHistoryFailed : Int := 5

/-- WifiTrgScanFailed value of DevicesState. -/
def WifiTrgScanFailed : Int := 6

/-- WifiGetScanResultFailed value of DevicesState. -/
def WifiGetScanResultFailed : Int := 7

/-- WifiSetConnectedFailed value of DevicesState. -/
def WifiSetConnectedFailed : Int := 8

/-- WifiSetPasswordError value of DevicesState: error password. -/
def WifiSetPasswordError : Int := 9

/-- WifiGetIpFailed value of DevicesState. -/
def WifiGetIpFailed : Int := 10

/-- WifiUpdArpFailed value of DevicesState. -/
def WifiUpdArpFailed : Int := 11

/-- WifiSetCountryCodeError value of DevicesState. -/
def WifiSetCountryCodeError : Int := 12

/-- WifiGetApInfoFailed value of DevicesState. -/
def WifiGetApInfoFailed : Int := 13

/-- WifiUnknown value of DevicesState. -/
def WifiUnknown : Int := 14

/-! ## Demo device tracking (main.cpp lines 17-38)

`onDevChanged` is the device-changed callback of the demo client: it keeps
a serial-number list `kDevs` in sync with plug/unplug events.  The C++
body is: find `dev_sn` in `kDevs`; on plug-in, append it only when absent;
on unplug, erase the found occurrence when present. -/

/-- Embedding of `onDevChanged` from main.cpp: `in_out = true` is a
plug-in event, `false` an unplug event; returns the updated `kDevs`
list. `List.erase` removes the first occurrence, matching the
`std::find` / `erase(it)` pair in the source. -/
def onDevChanged (kDevs : List String) (dev_sn : String) (in_out : Bool) : List String :=
  if in_out then
    if dev_sn ∈ kDevs then kDevs else kDevs ++ [dev_sn]
  else
    kDevs.erase dev_sn

/-- Replay a sequence of (sn, plug-in?) events against the tracked list,
oldest first, via `onDevChanged`. -/
def replayDevChanged (kDevs : List String) (events : List (String × Bool)) : List String :=
  events.foldl (fun l e => onDevChanged l e.1 e.2) kDevs

/-- Last event recorded for a given serial number in an event sequence
(oldest event first), if any: `some true` when the last event is a
plug-in, `some false` when it is an unplug. -/
def lastEvent (sn : String) : List (String × Bool) → Option Bool
  | [] => none
  | e :: rest =>
    match lastEvent sn rest with
    | some b => some b
    | none => if e.1 = sn then some e.2 else none

/-- Plug-in and unplug events keep the tracked list duplicate-free. -/
theorem onDevChanged_nodup (l : List String) (sn : String) (b : Bool) (h : l.Nodup) :
    (onDevChanged l sn b).Nodup := by
  unfold onDevChanged
  cases b with
  | false => simpa using h.erase sn
  | true =>
    by_cases hm : sn ∈ l
    · simpa [hm] using h
    · simp only [hm, if_true, if_false, Bool.false_eq_true]
      rw [List.nodup_append]
      exact ⟨h, List.nodup_singleton sn, by simpa using hm⟩

/-- Membership after replaying an event sequence over a duplicate-free
tracked list: a serial number is tracked afterwards exactly when its last
event is a plug-in, or it had no event and was tracked before. -/
theorem mem_replayDevChanged (events : List (String × Bool)) (l : List String)
    (sn : String) (h : l.Nodup) :
    sn ∈ replayDevChanged l events ↔
      (lastEvent sn events = some true ∨ (lastEvent sn events = none ∧ sn ∈ l)) := by
  induction events generalizing l with
  | nil => simp [replayDevChanged, lastEvent]
  | cons e rest ih =>
    have hnd : (onDevChanged l e.1 e.2).Nodup := onDevChanged_nodup l e.1 e.2 h
    have hrep : replayDevChanged l (e :: rest) = replayDevChanged (onDevChanged l e.1 e.2) rest := rfl
    rw [hrep, ih _ hnd]
    cases hle : lastEvent sn rest with
    | some b => simp [lastEvent, hle]
    | none =>
      simp only [lastEvent, hle]
      by_cases he : e.1 = sn
      · cases hb : e.2 with
        | false =>
          have hni : sn ∉ l.erase sn := fun hc => ((h.mem_erase_iff).mp hc).1 rfl
          simp [onDevChanged, hb, he, hni]
        | true =>
          by_cases hm : sn ∈ l <;> simp [onDevChanged, hb, he, hm]
      · have hne : sn ≠ e.1 := fun hc => he hc.symm
        cases hb : e.2 with
        | false =>
          simp only [onDevChanged, hb, Bool.false_eq_true, if_false, if_neg he]
          rw [h.mem_erase_iff]
          simp [hne]
        | true =>
          by_cases hm : e.1 ∈ l <;> simp [onDevChanged, hb, hm, if_neg he, hne]

/-- C2: replaying any appear/vanish event sequence against the tracked
device list (started empty, as `main` clears `kDevs`) leaves exactly the
serial numbers whose last event is an appear; a duplicate appear for a
tracked serial number and a vanish for an untracked one each leave the
tracked list unchanged. -/
theorem C2_registry_replay_last_event (events : List (String × Bool)) (sn : String)
    (l l2 : List String) (h1 : sn ∈ l) (h2 : sn ∉ l2) :
    (sn ∈ replayDevChanged [] events ↔ lastEvent sn events = some true)
    ∧ onDevChanged l sn true = l
    ∧ onDevChanged l2 sn false = l2 := by
  refine ⟨?_, ?_, ?_⟩
  · rw [mem_replayDevChanged events [] sn List.nodup_nil]
    simp
  · simp [onDevChanged, h1]
  · simp [onDevChanged, List.erase_of_not_mem h2]

/-- Witness for C2 at a concrete event sequence: serial "A" appears,
vanishes, then appears again; "B" appears then vanishes. -/
theorem C2_registry_replay_last_event_witness :
    ("A" ∈ ["A", "B"] ∧ "A" ∉ ["B"])
    ∧ (("A" ∈ replayDevChanged [] [("A", true), ("B", true), ("A", false), ("A", true), ("B", false)] ↔
         lastEvent "A" [("A", true), ("B", true), ("A", false), ("A", true), ("B", false)] = some true)
       ∧ onDevChanged ["A", "B"] "A" true = ["A", "B"]
       ∧ onDevChanged ["B"] "A" false = ["B"]) :=
  ⟨⟨by decide, by decide⟩,
   C2_registry_replay_last_event [("A", true), ("B", true), ("A", false), ("A", true), ("B", false)]
     "A" ["A", "B"] ["B"] (by decide) (by decide)⟩

/-! ## Request dispatcher

The dispatcher implementation (the bodies behind the blocking and
non-blocking call declarations of dev.hpp) is not under `src/`; the model
below follows spec sections 4.2 and 5, using the error codes of
`Device::ErrorType` embedded above. -/

/-- Modelled from the spec: the per-device dispatcher state of section 4.2,
reduced to the tags of the PendingRequests currently outstanding on the
device (the completion slots and waiters play no role in the claims). -/
structure DispatcherState where
  pending : List Nat
deriving DecidableEq

/-- Modelled from the spec (section 4.2): issuing a request whose tag is
already in flight on the device returns CommErrorBusy at once and leaves
the dispatcher unchanged (nothing is queued); otherwise the send is
accepted and a PendingRequest with that tag is created. -/
def issueRequest (st : DispatcherState) (tag : Nat) : Int × DispatcherState :=
  if tag ∈ st.pending then (CommErrorBusy, st)
  else (CommErrorNone, ⟨tag :: st.pending⟩)

/-- Modelled from the spec (section 4.2): an inbound response is matched by
tag, not arrival order; when a PendingRequest with that tag is outstanding
it completes and is destroyed, otherwise the frame delivers nothing. -/
def completeResponse (st : DispatcherState) (tag : Nat) : Option Nat × DispatcherState :=
  if tag ∈ st.pending then (some tag, ⟨st.pending.erase tag⟩)
  else (none, st)

/-- Modelled from the spec (section 5, Cancellation): removing the device
fails every outstanding PendingRequest with the device-gone code
CommErrorOther, unblocking their waiters, and destroys them all.  Returns
the list of (tag, code) completions delivered. -/
def vanishDevice (st : DispatcherState) : List (Nat × Int) × DispatcherState :=
  (st.pending.map (fun t => (t, CommErrorOther)), ⟨[]⟩)

/-- Result handed to a non-blocking caller's RxDataCallback. -/
inductive RxResult where
  | ok (payload : List Nat)
  | err (code : Int)
deriving DecidableEq

/-- Modelled from the RxDataCallback doc comment (dev.hpp lines 183-189):
the first field of the data handed to the response callback is the payload
length when the request succeeded and the (negative) error code
otherwise. -/
def rxFirstField : RxResult → Int
  | .ok payload => payload.length
  | .err code => code

/-- Modelled from the spec (section 4.2, NonBlock): delivering the result
of an accepted non-blocking request invokes the registered callback once,
with the result data, and destroys the PendingRequest; a result for a tag
with no outstanding request invokes nothing.  Returns the list of callback
invocations (by their first field). -/
def deliverNonBlock (st : DispatcherState) (tag : Nat) (res : RxResult) :
    List Int × DispatcherState :=
  if tag ∈ st.pending then ([rxFirstField res], ⟨st.pending.erase tag⟩)
  else ([], st)

/-- C1: at most one PendingRequest per tag is outstanding on a device:
the no-duplicate invariant on the pending tags is preserved by issuing a
request (so any tag occurs at most once), and issuing a second request
while one with the same tag is in flight returns CommErrorBusy with the
dispatcher unchanged, never queuing a new request. -/
theorem C1_duplicate_tag_busy (st st2 : DispatcherState) (tag tag2 t : Nat)
    (hin : tag ∈ st.pending) (hinv : st2.pending.Nodup) :
    issueRequest st tag = (CommErrorBusy, st)
    ∧ (issueRequest st2 tag2).2.pending.Nodup
    ∧ (issueRequest st2 tag2).2.pending.count t ≤ 1 := by
  have hbusy : issueRequest st tag = (CommErrorBusy, st) := by
    simp [issueRequest, hin]
  have hnd : (issueRequest st2 tag2).2.pending.Nodup := by
    by_cases hm : tag2 ∈ st2.pending
    · simpa [issueRequest, hm] using hinv
    · simpa [issueRequest, hm] using List.nodup_cons.mpr ⟨hm, hinv⟩
  exact ⟨hbusy, hnd, List.nodup_iff_count_le_one.mp hnd t⟩

/-- Witness for C1: tag 5 is in flight, so a second issue is rejected
busy; issuing fresh tag 3 on a dispatcher with tags 1 and 2 keeps every
tag unique. -/
theorem C1_duplicate_tag_busy_witness :
    (5 ∈ (DispatcherState.mk [5]).pending ∧ ([1, 2] : List Nat).Nodup)
    ∧ (issueRequest ⟨[5]⟩ 5 = (CommErrorBusy, ⟨[5]⟩)
       ∧ (issueRequest ⟨[1, 2]⟩ 3).2.pending.Nodup
       ∧ (issueRequest ⟨[1, 2]⟩ 3).2.pending.count 1 ≤ 1) :=
  ⟨⟨by decide, by decide⟩,
   C1_duplicate_tag_busy ⟨[5]⟩ ⟨[1, 2]⟩ 5 3 1 (by decide) (by decide)⟩

/-- C5: removing a device completes every outstanding PendingRequest with
the device-gone code CommErrorOther (one completion per pending request,
so all suspended callers are unblocked), leaves no request outstanding,
and a response arriving after the removal delivers no result. -/
theorem C5_vanish_fails_pending (st : DispatcherState) (tag : Nat)
    (hin : tag ∈ st.pending) :
    (vanishDevice st).1 = st.pending.map (fun t => (t, CommErrorOther))
    ∧ (tag, CommErrorOther) ∈ (vanishDevice st).1
    ∧ (vanishDevice st).1.length = st.pending.length
    ∧ (vanishDevice st).2.pending = []
    ∧ completeResponse (vanishDevice st).2 tag = (none, (vanishDevice st).2) := by
  refine ⟨rfl, ?_, by simp [vanishDevice], rfl, by simp [completeResponse, vanishDevice]⟩
  simp only [vanishDevice, List.mem_map]
  exact ⟨tag, hin, rfl⟩

/-- Witness for C5 with tags 4 and 9 outstanding: both complete with
CommErrorOther and nothing survives the removal. -/
theorem C5_vanish_fails_pending_witness :
    (9 ∈ (DispatcherState.mk [4, 9]).pending)
    ∧ ((vanishDevice ⟨[4, 9]⟩).1 = [4, 9].map (fun t => (t, CommErrorOther))
       ∧ (9, CommErrorOther) ∈ (vanishDevice ⟨[4, 9]⟩).1
       ∧ (vanishDevice ⟨[4, 9]⟩).1.length = ([4, 9] : List Nat).length
       ∧ (vanishDevice ⟨[4, 9]⟩).2.pending = []
       ∧ completeResponse (vanishDevice ⟨[4, 9]⟩).2 9 = (none, (vanishDevice ⟨[4, 9]⟩).2)) :=
  ⟨by decide, C5_vanish_fails_pending ⟨[4, 9]⟩ 9 (by decide)⟩

/-- C7: a non-blocking call whose send is accepted returns CommErrorNone
synchronously (the model is a total function of the issuing state: there
is no suspension); delivering the response invokes the callback exactly
once, after which the request is gone so no second invocation can occur;
the first field the callback carries is the payload length (nonnegative)
on success and the negative error code on failure. -/
theorem C7_nonblock_callback_once (st : DispatcherState) (tag : Nat)
    (res : RxResult) (payload : List Nat) (code : Int)
    (hacc : tag ∉ st.pending) (hcode : code < 0) :
    (issueRequest st tag).1 = CommErrorNone
    ∧ (deliverNonBlock (issueRequest st tag).2 tag res).1 = [rxFirstField res]
    ∧ (deliverNonBlock (deliverNonBlock (issueRequest st tag).2 tag res).2 tag res).1 = []
    ∧ rxFirstField (.ok payload) = payload.length
    ∧ 0 ≤ rxFirstField (.ok payload)
    ∧ rxFirstField (.err code) = code
    ∧ rxFirstField (.err code) < 0 := by
  have hiss : (issueRequest st tag).2.pending = tag :: st.pending := by
    simp [issueRequest, hacc]
  have hmem : tag ∈ (issueRequest st tag).2.pending := by
    rw [hiss]; exact List.mem_cons_self tag st.pending
  have hdel : (deliverNonBlock (issueRequest st tag).2 tag res).2.pending = st.pending := by
    simp [deliverNonBlock, hmem, hiss]
  have hsecond : deliverNonBlock (deliverNonBlock (issueRequest st tag).2 tag res).2 tag res
      = ([], (deliverNonBlock (issueRequest st tag).2 tag res).2) := by
    rw [deliverNonBlock, if_neg (by rw [hdel]; exact hacc)]
  refine ⟨by simp [issueRequest, hacc], by simp [deliverNonBlock, hmem], ?_, rfl, ?_, rfl, hcode⟩
  · rw [hsecond]
  · simp [rxFirstField]

/-- Witness for C7: fresh tag 7 on an idle dispatcher, successful payload
of three bytes and error code -3 (CommErrorTimeout). -/
theorem C7_nonblock_callback_once_witness :
    (7 ∉ (DispatcherState.mk []).pending ∧ (-3 : Int) < 0)
    ∧ ((issueRequest ⟨[]⟩ 7).1 = CommErrorNone
       ∧ (deliverNonBlock (issueRequest ⟨[]⟩ 7).2 7 (.ok [1, 2, 3])).1 = [rxFirstField (.ok [1, 2, 3])]
       ∧ (deliverNonBlock (deliverNonBlock (issueRequest ⟨[]⟩ 7).2 7 (.ok [1, 2, 3])).2 7 (.ok [1, 2, 3])).1 = []
       ∧ rxFirstField (.ok [1, 2, 3]) = ([1, 2, 3] : List Nat).length
       ∧ 0 ≤ rxFirstField (.ok [1, 2, 3])
       ∧ rxFirstField (.err (-3)) = -3
       ∧ rxFirstField (.err (-3)) < 0) :=
  ⟨⟨by decide, by decide⟩,
   C7_nonblock_callback_once ⟨[]⟩ 7 (.ok [1, 2, 3]) [1, 2, 3] (-3) (by decide) (by decide)⟩

/-! ## Wi-Fi provisioning state machine

The step enumeration is embedded from `Devices::WifiCfgSteps` (devs.hpp
lines 80-94); the session dynamics are modelled from spec section 4.6
since the machine's implementation is not under `src/`. -/

/-- Embedding of `Devices::WifiCfgSteps` from devs.hpp lines 80-94. -/
inductive WifiCfgSteps where
  | WifiCfgIdle
  | WifiCfgConnectBluetooth
  | WifiCfgSetMode
  | WifiCfgGetHistoryRecords
  | WifiCfgTrgScan
  | WifiCfgGetScanResults
  | WifiCfgSetConnect
  | WifiCfgGetIp
  | WifiCfgUpdateArp
  | WifiCfgSetCountryCode
  | WifiCfgGetApStatus
deriving DecidableEq

/-- Numeric value of each WifiCfgSteps enumerator in devs.hpp (C++ assigns
0, 1, 2, ... in declaration order). -/
def stepValue : WifiCfgSteps → Nat
  | .WifiCfgIdle => 0
  | .WifiCfgConnectBluetooth => 1
  | .WifiCfgSetMode => 2
  | .WifiCfgGetHistoryRecords => 3
  | .WifiCfgTrgScan => 4
  | .WifiCfgGetScanResults => 5
  | .WifiCfgSetConnect => 6
  | .WifiCfgGetIp => 7
  | .WifiCfgUpdateArp => 8
  | .WifiCfgSetCountryCode => 9
  | .WifiCfgGetApStatus => 10

/-- Station-path step order, from spec section 4.6 and the devs.hpp comment
that `WifiCfgUpdateArp` is the last step in station mode. -/
def stationPath : List WifiCfgSteps :=
  [.WifiCfgIdle, .WifiCfgConnectBluetooth, .WifiCfgSetMode, .WifiCfgGetHistoryRecords,
   .WifiCfgTrgScan, .WifiCfgGetScanResults, .WifiCfgSetConnect, .WifiCfgGetIp,
   .WifiCfgUpdateArp]

/-- Access-point-path step order, from spec section 4.6 and the devs.hpp
comment that `WifiCfgGetApStatus` is the last step in ap mode. -/
def apPath : List WifiCfgSteps :=
  [.WifiCfgIdle, .WifiCfgConnectBluetooth, .WifiCfgSetMode, .WifiCfgSetCountryCode,
   .WifiCfgGetApStatus]

/-- Successor of a step on the station path (none for the terminal step
and for steps not on the path). -/
def stationNext : WifiCfgSteps → Option WifiCfgSteps
  | .WifiCfgIdle => some .WifiCfgConnectBluetooth
  | .WifiCfgConnectBluetooth => some .WifiCfgSetMode
  | .WifiCfgSetMode => some .WifiCfgGetHistoryRecords
  | .WifiCfgGetHistoryRecords => some .WifiCfgTrgScan
  | .WifiCfgTrgScan => some .WifiCfgGetScanResults
  | .WifiCfgGetScanResults => some .WifiCfgSetConnect
  | .WifiCfgSetConnect => some .WifiCfgGetIp
  | .WifiCfgGetIp => some .WifiCfgUpdateArp
  | _ => none

/-- Successor of a step on the access-point path. -/
def apNext : WifiCfgSteps → Option WifiCfgSteps
  | .WifiCfgIdle => some .WifiCfgConnectBluetooth
  | .WifiCfgConnectBluetooth => some .WifiCfgSetMode
  | .WifiCfgSetMode => some .WifiCfgSetCountryCode
  | .WifiCfgSetCountryCode => some .WifiCfgGetApStatus
  | _ => none

/-- A provisioning session: progressing at some step, failed at a step
with an error code, or finished. -/
inductive SessionState where
  | active (step : WifiCfgSteps)
  | failed (step : WifiCfgSteps) (code : Int)
  | finished
deriving DecidableEq

/-- Modelled from the spec (section 4.6): one provisioning transition.
The dispatcher call for the current step returns `result`; `WifiOk` (0)
advances the session to the next step of the path (or finishes it at the
terminal step); any other result aborts the session at the current step,
recording the step and the error code, with no automatic retry; aborted
and finished sessions do not move. -/
def wifiCfgStep (next : WifiCfgSteps → Option WifiCfgSteps)
    (s : SessionState) (result : Int) : SessionState :=
  match s with
  | .active step =>
    if result = WifiOk then
      match next step with
      | some step2 => .active step2
      | none => .finished
    else .failed step result
  | s => s

/-- Run a provisioning session over a list of per-step dispatcher
results, oldest first. -/
def runWifiCfg (next : WifiCfgSteps → Option WifiCfgSteps)
    (s : SessionState) (results : List Int) : SessionState :=
  results.foldl (wifiCfgStep next) s

/-- All session states visited while running over the result list,
starting state included. -/
def wifiCfgStates (next : WifiCfgSteps → Option WifiCfgSteps) :
    SessionState → List Int → List SessionState
  | s, [] => [s]
  | s, r :: rest => s :: wifiCfgStates next (wifiCfgStep next s r) rest

/-- Dispatcher results for the wrong-password station scenario: the six
steps Idle through GetScanResults succeed, then SetConnect fails with the
password error code. -/
def wrongPasswordRun : List Int :=
  [WifiOk, WifiOk, WifiOk, WifiOk, WifiOk, WifiOk, WifiSetPasswordError]

/-- C3: provisioning advances strictly forward through the fixed station
and access-point step orders (successive steps have strictly increasing
enumerator values, and a successful step moves precisely to the path
successor); an error result aborts the session at the current step,
recording that step and the error code, and an aborted session never
moves again; failing SetConnect with the password error after six
successful station steps yields a session failed at SetConnect with code
WifiSetPasswordError, and the session never reaches GetIp. -/
theorem C3_wifi_cfg_forward_abort (s s2 : WifiCfgSteps) (e r : Int)
    (hnext : stationNext s = some s2) (he : e ≠ WifiOk) :
    List.Chain' (fun a b => stepValue a < stepValue b) stationPath
    ∧ List.Chain' (fun a b => stepValue a < stepValue b) apPath
    ∧ wifiCfgStep stationNext (.active s) WifiOk = .active s2
    ∧ stepValue s < stepValue s2
    ∧ wifiCfgStep stationNext (.active s) e = .failed s e
    ∧ wifiCfgStep stationNext (.failed s e) r = .failed s e
    ∧ runWifiCfg stationNext (.active .WifiCfgIdle) wrongPasswordRun
        = .failed .WifiCfgSetConnect WifiSetPasswordError
    ∧ SessionState.active .WifiCfgGetIp
        ∉ wifiCfgStates stationNext (.active .WifiCfgIdle) wrongPasswordRun := by
  refine ⟨?_, ?_, ?_, ?_, by simp [wifiCfgStep, he], ?_, by decide, by decide⟩
  · simp [stationPath, stepValue, List.chain'_cons, List.chain'_singleton]
  · simp [apPath, stepValue, List.chain'_cons, List.chain'_singleton]
  · simp [wifiCfgStep, WifiOk, hnext]
  · cases s <;> first
      | (injection hnext with h; subst h; decide)
      | simp [stationNext] at hnext
  · rfl

/-- Witness for C3 at the SetConnect step, password error code 9 and a
retry result 0. -/
theorem C3_wifi_cfg_forward_abort_witness :
    (stationNext .WifiCfgSetConnect = some .WifiCfgGetIp ∧ WifiSetPasswordError ≠ WifiOk)
    ∧ (List.Chain' (fun a b => stepValue a < stepValue b) stationPath
       ∧ List.Chain' (fun a b => stepValue a < stepValue b) apPath
       ∧ wifiCfgStep stationNext (.active .WifiCfgSetConnect) WifiOk = .active .WifiCfgGetIp
       ∧ stepValue .WifiCfgSetConnect < stepValue .WifiCfgGetIp
       ∧ wifiCfgStep stationNext (.active .WifiCfgSetConnect) WifiSetPasswordError
           = .failed .WifiCfgSetConnect WifiSetPasswordError
       ∧ wifiCfgStep stationNext (.failed .WifiCfgSetConnect WifiSetPasswordError) WifiOk
           = .failed .WifiCfgSetConnect WifiSetPasswordError
       ∧ runWifiCfg stationNext (.active .WifiCfgIdle) wrongPasswordRun
           = .failed .WifiCfgSetConnect WifiSetPasswordError
       ∧ SessionState.active .WifiCfgGetIp
           ∉ wifiCfgStates stationNext (.active .WifiCfgIdle) wrongPasswordRun) :=
  ⟨⟨by decide, by decide⟩,
   C3_wifi_cfg_forward_abort .WifiCfgSetConnect .WifiCfgGetIp WifiSetPasswordError WifiOk
     (by decide) (by decide)⟩

/-! ## Command codec

No codec implementation is under `src/`; the frame model follows spec
sections 4.1 and 6 (a frame is a tag, a status code and a length-prefixed
payload), with the length check returning the `CommErrorLength` code of
`Device::ErrorType`. -/

/-- Modelled from the spec (sections 4.1 and 6): a frame is a header
(tag, status code, declared payload length) plus the payload bytes. -/
structure Frame where
  tag : Nat
  status : Int
  len : Nat
  payload : List Nat
deriving DecidableEq

/-- Modelled from the spec (section 4.1): encode a command into a frame;
a pure function of the tag and parameters alone, using no device or
transport state. -/
def encode (tag : Nat) (params : List Nat) : Frame :=
  ⟨tag, CommErrorNone, params.length, params⟩

/-- Modelled from the spec (section 4.1): decode an inbound frame into
(tag, status, payload), rejecting a frame whose declared length does not
match the received byte count with the typed failure CommErrorLength. -/
def decode (f : Frame) : Except Int (Nat × Int × List Nat) :=
  if f.len = f.payload.length then .ok (f.tag, f.status, f.payload)
  else .error CommErrorLength

/-- C4: decoding the frame produced by encode recovers the tag and
parameters exactly, for every tag and parameter list; both directions are
pure functions of their arguments (no device or transport state appears
in their types), and a length-mismatched frame is rejected with
CommErrorLength rather than decoded. -/
theorem C4_codec_roundtrip (tag : Nat) (params : List Nat) :
    decode (encode tag params) = .ok (tag, CommErrorNone, params)
    ∧ decode ⟨tag, CommErrorNone, params.length + 1, params⟩ = .error CommErrorLength := by
  constructor
  · simp [decode, encode]
  · simp [decode]

/-! ## Status poller

The refresh period macro is embedded from dev.hpp line 20; the tick
dynamics are modelled from spec section 4.3 and the `nextRefreshDevStatus`
doc comment (dev.hpp lines 1078-1092), since the poller body is not under
`src/`.  Snapshots are abstracted to a single number; `observed` logs the
snapshots handed to the registered status observer. -/

/-- Poller state of one device: countdown counter, cached CameraState
snapshot, and the log of status-observer invocations. -/
structure PollerState where
  cnt : Nat
  cached : Nat
  observed : List Nat
deriving DecidableEq

/-- Modelled from the spec (section 4.3): one poll tick.  The counter
counts down; at zero a status fetch is issued: on success the cached
CameraState is replaced wholesale by the fetched snapshot and the status
observer is invoked with it, on failure the error is swallowed; either
way the counter resets to the refresh period.  Away from zero the counter
just decrements and no fetch is issued.  Returns the new state and
whether a fetch was issued on this tick. -/
def pollTick (st : PollerState) (fetchResult : Option Nat) : PollerState × Bool :=
  if st.cnt = 0 then
    match fetchResult with
    | some snap => (⟨UVC_DEV_CAM_STATUS_REFRESH_PERIOD, snap, st.observed ++ [snap]⟩, true)
    | none => (⟨UVC_DEV_CAM_STATUS_REFRESH_PERIOD, st.cached, st.observed⟩, true)
  else (⟨st.cnt - 1, st.cached, st.observed⟩, false)

/-- Modelled from `nextRefreshDevStatus` (dev.hpp lines 1078-1092, spec
section 4.3): set the countdown counter so the caller controls when the
next status fetch fires; value 0 makes the very next tick fetch. -/
def nextRefreshDevStatus (st : PollerState) (value : Nat) : PollerState :=
  ⟨value, st.cached, st.observed⟩

/-- Run a sequence of poll ticks, returning the final state and the
number of ticks on which a status fetch was issued. -/
def runPoll (st : PollerState) : List (Option Nat) → PollerState × Nat
  | [] => (st, 0)
  | r :: rest =>
    let t := pollTick st r
    let f := runPoll t.1 rest
    (f.1, (if t.2 then 1 else 0) + f.2)

/-- Running exactly cnt + 1 ticks with no intervening manual counter
reset issues exactly one status fetch. -/
theorem runPoll_one_fetch (fetches : List (Option Nat)) (st : PollerState)
    (hlen : fetches.length = st.cnt + 1) : (runPoll st fetches).2 = 1 := by
  induction fetches generalizing st with
  | nil => simp at hlen
  | cons r rest ih =>
    by_cases hz : st.cnt = 0
    · have hrest : rest = [] := by
        rw [List.length_cons, hz] at hlen
        exact List.length_eq_zero.mp (by omega)
      subst hrest
      cases r <;> simp [runPoll, pollTick, hz]
    · have hcnt : (pollTick st r).1.cnt = st.cnt - 1 := by
        simp [pollTick, hz]
      have hfetch : (pollTick st r).2 = false := by
        simp [pollTick, hz]
      have hlen2 : rest.length = (pollTick st r).1.cnt + 1 := by
        rw [hcnt]
        rw [List.length_cons] at hlen
        omega
      simp [runPoll, hfetch, ih _ hlen2]

/-- C6: the status-refresh period macro is 100 poll ticks; with no
intervening nextRefreshDevStatus call, running cnt + 1 ticks issues
exactly one status fetch, and the tick that fetches successfully resets
the counter to the period, replaces the cached snapshot wholesale and
invokes the status observer with the new snapshot; after
nextRefreshDevStatus 0 the very next tick triggers a fetch. -/
theorem C6_status_poller_period (st : PollerState) (snap : Nat)
    (fetches : List (Option Nat)) (hlen : fetches.length = st.cnt + 1) :
    UVC_DEV_CAM_STATUS_REFRESH_PERIOD = 100
    ∧ (runPoll st fetches).2 = 1
    ∧ (pollTick (nextRefreshDevStatus st 0) (some snap)).2 = true
    ∧ (pollTick (nextRefreshDevStatus st 0) (some snap)).1.cached = snap
    ∧ (pollTick (nextRefreshDevStatus st 0) (some snap)).1.observed = st.observed ++ [snap]
    ∧ (pollTick (nextRefreshDevStatus st 0) (some snap)).1.cnt
        = UVC_DEV_CAM_STATUS_REFRESH_PERIOD := by
  refine ⟨rfl, runPoll_one_fetch fetches st hlen, ?_, ?_, ?_, ?_⟩ <;>
    simp [pollTick, nextRefreshDevStatus]

/-- Witness for C6: counter at 2, three ticks, snapshot 7 fetched. -/
theorem C6_status_poller_period_witness :
    (([none, none, some 7] : List (Option Nat)).length = (PollerState.mk 2 0 []).cnt + 1)
    ∧ (UVC_DEV_CAM_STATUS_REFRESH_PERIOD = 100
       ∧ (runPoll ⟨2, 0, []⟩ [none, none, some 7]).2 = 1
       ∧ (pollTick (nextRefreshDevStatus ⟨2, 0, []⟩ 0) (some 7)).2 = true
       ∧ (pollTick (nextRefreshDevStatus ⟨2, 0, []⟩ 0) (some 7)).1.cached = 7
       ∧ (pollTick (nextRefreshDevStatus ⟨2, 0, []⟩ 0) (some 7)).1.observed
           = (PollerState.mk 2 0 []).observed ++ [7]
       ∧ (pollTick (nextRefreshDevStatus ⟨2, 0, []⟩ 0) (some 7)).1.cnt
           = UVC_DEV_CAM_STATUS_REFRESH_PERIOD) :=
  ⟨by decide, C6_status_poller_period ⟨2, 0, []⟩ 7 [none, none, some 7] (by decide)⟩

/-! ## Network scan trigger -/

/-- Modelled from the spec (section 4.6): the network-scan side of the
registry: whether a scan is currently in progress and the countdown to
the next periodic scan. -/
structure NetScanState where
  scanning : Bool
  countdown : Nat
deriving DecidableEq

/-- Modelled from the `startNetworkScanImmediately` doc comment
(devs.hpp lines 224-230) and spec section 4.6: when a scan is already in
progress it returns the documented failure code RM_RET_ERR and changes
nothing (no second scan is started); otherwise it returns RM_RET_OK,
short-circuits the countdown to zero and marks a scan in progress. -/
def startNetworkScanImmediately (st : NetScanState) : Int × NetScanState :=
  if st.scanning then (RM_RET_ERR, st)
  else (RM_RET_OK, ⟨true, 0⟩)

/-- C8: with a scan already in progress, startNetworkScanImmediately
returns the busy failure code RM_RET_ERR and leaves the scan state
untouched, so no second scan starts; otherwise it succeeds with
RM_RET_OK, zeroes the countdown to the next periodic scan and starts the
scan. -/
theorem C8_network_scan_busy (st st2 : NetScanState)
    (hbusy : st.scanning = true) (hidle : st2.scanning = false) :
    startNetworkScanImmediately st = (RM_RET_ERR, st)
    ∧ (startNetworkScanImmediately st2).1 = RM_RET_OK
    ∧ (startNetworkScanImmediately st2).2.countdown = 0
    ∧ (startNetworkScanImmediately st2).2.scanning = true := by
  refine ⟨by simp [startNetworkScanImmediately, hbusy], ?_, ?_, ?_⟩ <;>
    simp [startNetworkScanImmediately, hidle]

/-- Witness for C8: a scanning state with 40 ticks left and an idle
state with 40 ticks left. -/
theorem C8_network_scan_busy_witness :
    ((NetScanState.mk true 40).scanning = true ∧ (NetScanState.mk false 40).scanning = false)
    ∧ (startNetworkScanImmediately ⟨true, 40⟩ = (RM_RET_ERR, ⟨true, 40⟩)
       ∧ (startNetworkScanImmediately ⟨false, 40⟩).1 = RM_RET_OK
       ∧ (startNetworkScanImmediately ⟨false, 40⟩).2.countdown = 0
       ∧ (startNetworkScanImmediately ⟨false, 40⟩).2.scanning = true) :=
  ⟨⟨by decide, by decide⟩, C8_network_scan_busy ⟨true, 40⟩ ⟨false, 40⟩ (by decide) (by decide)⟩

/-! ## File-download results -/

/-- Modelled from the FileDownloadCallback doc comment (dev.hpp lines
148-159) and spec section 6: the download results the library delivers to
the registered FileDownloadCallback, as values of the ResDownloadState
taxonomy. -/
def deliveredDownloadResults : List Int :=
  [kResSameWithLocal, kResDownloadSuccess, kResNotExist, kResDownloadErr]

/-- C9: a result delivered to the file-download callback is one of
exactly the four outcomes success = 0, sameAsLocal = 1, notExist = -1,
downloadError = -2, and those names carry exactly those ResDownloadState
values in the source. -/
theorem C9_download_result_values (r : Int) :
    (r ∈ deliveredDownloadResults ↔ (r = 0 ∨ r = 1 ∨ r = -1 ∨ r = -2))
    ∧ kResDownloadSuccess = 0 ∧ kResSameWithLocal = 1
    ∧ kResNotExist = -1 ∧ kResDownloadErr = -2 := by
  refine ⟨?_, rfl, rfl, rfl, rfl⟩
  simp only [deliveredDownloadResults, kResSameWithLocal, kResDownloadSuccess, kResNotExist,
    kResDownloadErr, List.mem_cons, List.not_mem_nil, or_false]
  tauto

/-! ## Device registry lookups

The lookup bodies behind `getDevByName` / `getDevByUuid` / `getDevBySn`
(devs.hpp lines 192-217) are not under `src/`; the model follows their doc
comments and spec section 4.5.  Each lookup is a pure read: it returns an
optional record and, by its very type, cannot create, register or remove
a device record. -/

/-- A tracked device record: uuid (24-byte value, modelled as a number
list), serial number and name. -/
structure DevRecord where
  uuid : List Nat
  dev_sn : String
  dev_name : String
deriving DecidableEq

/-- The device registry: the list of currently tracked device records. -/
structure Registry where
  devs : List DevRecord
deriving DecidableEq

/-- Modelled from the getDevByUuid doc comment (devs.hpp lines 199-204):
the tracked device with the given uuid, or none if it does not exist. -/
def getDevByUuid (r : Registry) (u : List Nat) : Option DevRecord :=
  r.devs.find? (fun d => d.uuid == u)

/-- Modelled from the getDevByName doc comment (devs.hpp lines 192-197):
the tracked device with the given name, or none if it does not exist. -/
def getDevByName (r : Registry) (n : String) : Option DevRecord :=
  r.devs.find? (fun d => d.dev_name == n)

/-- Modelled from the getDevBySn doc comment (devs.hpp lines 206-211):
the tracked device with the given serial number, or none if it does not
exist. -/
def getDevBySn (r : Registry) (dev_sn : String) : Option DevRecord :=
  r.devs.find? (fun d => d.dev_sn == dev_sn)

/-- C10: when no tracked device matches the queried uuid, name or serial
number, the corresponding lookup returns none (a null pointer); and any
record a lookup does return was already tracked and matches the queried
key, so a lookup never creates, registers or removes a record. -/
theorem C10_lookup_none_pure (r r2 : Registry) (u u2 : List Nat)
    (n dev_sn : String) (d : DevRecord)
    (hu : ∀ x ∈ r.devs, x.uuid ≠ u) (hn : ∀ x ∈ r.devs, x.dev_name ≠ n)
    (hs : ∀ x ∈ r.devs, x.dev_sn ≠ dev_sn) (hd : getDevByUuid r2 u2 = some d) :
    getDevByUuid r u = none
    ∧ getDevByName r n = none
    ∧ getDevBySn r dev_sn = none
    ∧ d ∈ r2.devs ∧ d.uuid = u2 := by
  refine ⟨?_, ?_, ?_, List.mem_of_find?_eq_some hd, ?_⟩
  · exact List.find?_eq_none.mpr (fun x hx => by simpa using hu x hx)
  · exact List.find?_eq_none.mpr (fun x hx => by simpa using hn x hx)
  · exact List.find?_eq_none.mpr (fun x hx => by simpa using hs x hx)
  · have := List.find?_some hd
    simpa using this

/-- Witness for C10: a registry tracking one device, queried with keys
that match no record, and a second registry where the uuid query matches
its single record. -/
theorem C10_lookup_none_pure_witness :
    ((∀ x ∈ (Registry.mk [⟨[1, 2], "SN00000000001", "Tiny"⟩]).devs, x.uuid ≠ [9])
     ∧ (∀ x ∈ (Registry.mk [⟨[1, 2], "SN00000000001", "Tiny"⟩]).devs, x.dev_name ≠ "Meet")
     ∧ (∀ x ∈ (Registry.mk [⟨[1, 2], "SN00000000001", "Tiny"⟩]).devs, x.dev_sn ≠ "SN00000000002")
     ∧ getDevByUuid ⟨[⟨[3, 4], "SN00000000003", "Me"⟩]⟩ [3, 4]
         = some ⟨[3, 4], "SN00000000003", "Me"⟩)
    ∧ (getDevByUuid ⟨[⟨[1, 2], "SN00000000001", "Tiny"⟩]⟩ [9] = none
       ∧ getDevByName ⟨[⟨[1, 2], "SN00000000001", "Tiny"⟩]⟩ "Meet" = none
       ∧ getDevBySn ⟨[⟨[1, 2], "SN00000000001", "Tiny"⟩]⟩ "SN00000000002" = none
       ∧ (⟨[3, 4], "SN00000000003", "Me"⟩ : DevRecord) ∈ (Registry.mk [⟨[3, 4], "SN00000000003", "Me"⟩]).devs
       ∧ (DevRecord.mk [3, 4] "SN00000000003" "Me").uuid = [3, 4]) :=
  ⟨⟨by decide, by decide, by decide, by decide⟩,
   C10_lookup_none_pure ⟨[⟨[1, 2], "SN00000000001", "Tiny"⟩]⟩ ⟨[⟨[3, 4], "SN00000000003", "Me"⟩]⟩
     [9] [3, 4] "Meet" "SN00000000002" ⟨[3, 4], "SN00000000003", "Me"⟩
     (by decide) (by decide) (by decide) (by decide)⟩

end Obsbot
